import Mathlib

/-!
Verification of the Acadefy client-side code against its specification.

The development shallow-embeds the JavaScript page controllers:
the application shell (frontend/static/js/main.js), the dashboard and
tutor controllers, and the profile controller
(frontend/static/js/profile.js).  Browser primitives (fetch, DOM,
localStorage) are modelled explicitly: a fetch is a value describing its
outcome, the DOM regions touched by the code become fields of explicit
state records, and localStorage is an association list of string pairs.
JavaScript string operations (trim, split, toLowerCase, startsWith,
length) are embedded as structurally recursive functions on the
character list of a Lean string so that every definition evaluates in
the kernel.
-/

namespace Acadefy

/-! ## JavaScript string primitives -/

/-- Whitespace characters removed by the JavaScript trim used here
(ASCII whitespace; the inputs in this code are ASCII). -/
def jsIsSpace (c : Char) : Bool :=
  c = ' ' || c = '\t' || c = '\n' || c = '\r' || c = '\x0b' || c = '\x0c'

/-- Drop leading whitespace characters from a character list. -/
def dropLeadingSpaces : List Char → List Char
  | [] => []
  | c :: cs => if jsIsSpace c then dropLeadingSpaces cs else c :: cs

/-- Embedding of the JavaScript String.prototype.trim. -/
def jsTrim (s : String) : String :=
  String.mk ((dropLeadingSpaces (dropLeadingSpaces s.data).reverse).reverse)

/-- Embedding of the JavaScript String length (code units; identical to
the character count for the ASCII data this code handles). -/
def jsLength (s : String) : Nat := s.data.length

/-- Embedding of the JavaScript split on the dot character:
name.split(".") never returns an empty array. -/
def splitOnDot : List Char → List (List Char)
  | [] => [[]]
  | c :: cs =>
      match splitOnDot cs with
      | [] => [[]]
      | h :: t => if c = '.' then [] :: h :: t else (c :: h) :: t

/-- ASCII lower-casing of one character, as toLowerCase acts on the
ASCII file names this code handles. -/
def jsCharToLower (c : Char) : Char :=
  if 65 ≤ c.toNat && c.toNat ≤ 90 then Char.ofNat (c.toNat + 32) else c

/-- Boolean test that the second list is an initial segment of the first. -/
def charsLeadWith : List Char → List Char → Bool
  | _, [] => true
  | [], _ :: _ => false
  | c :: cs, p :: ps => (c = p) && charsLeadWith cs ps

/-- Embedding of the JavaScript String.prototype.startsWith. -/
def jsStartsWith (s p : String) : Bool := charsLeadWith s.data p.data

/-! ## Application shell: the request helper (main.js, apiRequest)

A fetch call is modelled by the value it settles to: either a rejected
promise carrying a message (network or transport error), or a response
with an HTTP status whose body either parses as JSON or fails to parse.
The helper makes exactly one attempt: it consumes exactly one such
outcome and is a total function of it, so it can neither retry nor
throw past its boundary. -/

/-- Outcome of response.json() on a settled HTTP response. -/
inductive ParseOutcome (α : Type) where
  | parsed (data : α)
  | parseError (msg : String)
deriving DecidableEq

/-- Outcome of a single fetch call. -/
inductive FetchOutcome (α : Type) where
  | netError (msg : String)
  | response (status : Nat) (body : ParseOutcome α)
deriving DecidableEq

/-- Uniform result shape returned by the shell request helper. -/
inductive ApiResult (α : Type) where
  | success (data : α)
  | failure (error : String)
deriving DecidableEq

/-- Embedding of response.ok: the HTTP status is in the range 200-299. -/
def statusOk (status : Nat) : Bool :=
  decide (200 ≤ status) && decide (status < 300)

/-- Embedding of AcadefyApp.apiRequest (main.js lines 91-114): a non-ok
status throws before the body is read, response.json() may throw, and
every throw is caught and converted to a failure result. -/
def apiRequest {α : Type} (f : FetchOutcome α) : ApiResult α :=
  match f with
  | .netError m => .failure m
  | .response status body =>
      if statusOk status then
        match body with
        | .parsed d => .success d
        | .parseError m => .failure m
      else
        .failure ("HTTP error! status: " ++ toString status)

/-! ## Application shell: namespaced localStorage (main.js, storage) -/

/-- The browser localStorage, modelled as an association list from key
to stored string value. -/
abbrev Store := List (String × String)

/-- Embedding of localStorage.getItem: the value at the first matching
key, or none. -/
def lookupStore : Store → String → Option String
  | [], _ => none
  | (k2, v) :: rest, k => if k2 = k then some v else lookupStore rest k

/-- Embedding of localStorage.setItem: replace the value at an existing
key, otherwise append the new entry. -/
def setStore : Store → String → String → Store
  | [], k, v => [(k, v)]
  | (k2, v2) :: rest, k, v =>
      if k2 = k then (k, v) :: rest else (k2, v2) :: setStore rest k v

/-- Embedding of AcadefyApp.storage.clear (main.js lines 275-284): every
key that starts with the acadefy namespace is removed, all other
entries are kept. -/
def clearStore (st : Store) : Store :=
  st.filter (fun p => !(jsStartsWith p.1 "acadefy_"))

/-! ## Application shell: session identifier (main.js, generateSessionId) -/

/-- The namespaced localStorage key holding the session identifier. -/
def sessionKey : String := "acadefy_session_id"

/-- Embedding of the AcadefyApp initial sessionId field:
localStorage.getItem of the session key, with a falsy stored value
(the empty string) coerced to null by the or-null guard. -/
def initSessionId (st : Store) : Option String :=
  match lookupStore st sessionKey with
  | some v => if v = "" then none else some v
  | none => none

/-- The shell state: the cached session id and the backing storage. -/
structure AppState where
  sessionId : Option String
  store : Store
deriving DecidableEq

/-- The shell state right after a page load reads storage. -/
def initApp (st : Store) : AppState := ⟨initSessionId st, st⟩

/-- JavaScript truthiness of the sessionId field as tested by
generateSessionId: null and the empty string are falsy. -/
def sessionIdFalsy : Option String → Bool
  | none => true
  | some s => decide (s = "")

/-- Embedding of AcadefyApp.generateSessionId (main.js lines 19-25).
The fresh-entropy suffix built from Date.now and Math.random is passed
in as the argument fresh; a new identifier is generated and persisted
only when the cached identifier is falsy. -/
def generateSessionId (fresh : String) (s : AppState) : AppState × String :=
  if sessionIdFalsy s.sessionId then
    let sid := "session_" ++ fresh
    (⟨some sid, setStore s.store sessionKey sid⟩, sid)
  else
    (s, s.sessionId.getD "")

/-! ## Dashboard controller (src/unnamed/part_000, AcadefyDashboard)

The three fetches are sequential; each one stores its payload on
success and only logs on failure.  The display decision after the three
attempts depends only on the progress payload. -/

/-- One entry of the progress list returned by the progress endpoint. -/
structure ProgressItem where
  subject : String
  skill_level : Int
  completion_percentage : ℚ
  interactions_count : Nat
  accuracy_rate : ℚ
deriving DecidableEq

/-- Payload of the progress endpoint; the progress field may be absent. -/
structure ProgressPayload where
  progress : Option (List ProgressItem)
deriving DecidableEq

/-- Dashboard controller state: the three cached payloads, null until a
fetch succeeds.  The recommendation and analytics payload shapes do not
matter for the display decision, so they stay abstract. -/
structure DashboardState (ρ τ : Type) where
  progressData : Option ProgressPayload
  recommendationsData : Option ρ
  analyticsData : Option τ
deriving DecidableEq

/-- Dashboard state as built by the constructor: all three null. -/
def initDashboard {ρ τ : Type} : DashboardState ρ τ := ⟨none, none, none⟩

/-- Embedding of AcadefyDashboard.loadProgressData (lines 64-73). -/
def loadProgressData {ρ τ : Type} (s : DashboardState ρ τ)
    (resp : ApiResult ProgressPayload) : DashboardState ρ τ :=
  match resp with
  | .success d => { s with progressData := some d }
  | .failure _ => s

/-- Embedding of AcadefyDashboard.loadRecommendations (lines 75-84). -/
def loadRecommendations {ρ τ : Type} (s : DashboardState ρ τ)
    (resp : ApiResult ρ) : DashboardState ρ τ :=
  match resp with
  | .success d => { s with recommendationsData := some d }
  | .failure _ => s

/-- Embedding of AcadefyDashboard.loadAnalytics (lines 86-95). -/
def loadAnalytics {ρ τ : Type} (s : DashboardState ρ τ)
    (resp : ApiResult τ) : DashboardState ρ τ :=
  match resp with
  | .success d => { s with analyticsData := some d }
  | .failure _ => s

/-- Embedding of AcadefyDashboard.hasData (lines 97-101): the JavaScript
truthiness chain progressData, then its progress field, then a
non-empty length.  An array value is always truthy, so only an absent
field short-circuits. -/
def hasData {ρ τ : Type} (s : DashboardState ρ τ) : Bool :=
  match s.progressData with
  | none => false
  | some d =>
      match d.progress with
      | none => false
      | some l => decide (l.length > 0)

/-- The view the dashboard leaves visible after loading. -/
inductive DashDisplay where
  | content
  | emptyState
deriving DecidableEq

/-- Embedding of AcadefyDashboard.loadDashboardData (lines 30-62): run
the three fetch attempts in order, then show the content view when
hasData holds and the empty-state view otherwise. -/
def loadDashboardData {ρ τ : Type} (s : DashboardState ρ τ)
    (pr : ApiResult ProgressPayload) (rec : ApiResult ρ) (an : ApiResult τ) :
    DashboardState ρ τ × DashDisplay :=
  let s1 := loadProgressData s pr
  let s2 := loadRecommendations s1 rec
  let s3 := loadAnalytics s2 an
  (s3, if hasData s3 then .content else .emptyState)

/-- Embedding of the accuracyColor selection in
AcadefyDashboard.createProgressItem (lines 135-155): the CSS color
variable chosen for the accuracy figure of one progress item. -/
def accuracyColor (progress : ProgressItem) : String :=
  if progress.accuracy_rate ≥ 80 then "var(--secondary-color)"
  else if progress.accuracy_rate ≥ 60 then "var(--accent-color)"
  else "var(--danger-color)"

/-! ## Tutor controller (src/unnamed/part_000, AcadefyTutor) -/

/-- Role of a rendered chat message, taken from its CSS class. -/
inductive MsgRole where
  | user
  | ai
  | system
deriving DecidableEq

/-- One message element appended to the chat-messages region. -/
structure RenderedMessage where
  role : MsgRole
  text : String
  isError : Bool
deriving DecidableEq

/-- One completed exchange as pushed onto messageHistory.  The Date
timestamp recorded alongside is wall-clock time and is abstracted away. -/
structure ChatExchange where
  user : String
  ai : String
deriving DecidableEq

/-- Tutor controller state: the busy flag, the input box value, the
displayed message count, the in-memory history, the rendered message
list, and the chat-history local-storage mirror. -/
structure TutorState where
  sessionId : String
  isTyping : Bool
  inputValue : String
  messageCount : Nat
  messageHistory : List ChatExchange
  rendered : List RenderedMessage
  savedChatHistory : Option (List ChatExchange)
deriving DecidableEq

/-- A rendered user message. -/
def userMsg (text : String) : RenderedMessage := ⟨.user, text, false⟩

/-- A rendered AI message, possibly flagged as an error bubble. -/
def aiMsg (text : String) (isErr : Bool) : RenderedMessage := ⟨.ai, text, isErr⟩

/-- Reply payload of the tutor endpoint. -/
structure TutorReply where
  response : String
deriving DecidableEq

/-- Embedding of the synchronous head of AcadefyTutor.sendMessage
(lines 448-465): the early returns when the busy flag is set or the
trimmed input is empty change nothing and start no send (result none);
otherwise the input is cleared, the user message is rendered, the
typing indicator sets the busy flag, and the trimmed message goes out. -/
def sendMessageStart (s : TutorState) : TutorState × Option String :=
  if s.isTyping then (s, none)
  else
    let message := jsTrim s.inputValue
    if message = "" then (s, none)
    else
      ({ s with
          inputValue := "",
          rendered := s.rendered ++ [userMsg message],
          isTyping := true }, some message)

/-- Embedding of the continuation of AcadefyTutor.sendMessage after the
tutor call settles (lines 467-506): on success the AI reply is
rendered, the count grows by two, the exchange is pushed and mirrored
to storage; on failure an error bubble is rendered; either way the
finally block clears the busy flag. -/
def sendMessageResolve (s : TutorState) (message : String)
    (resp : ApiResult TutorReply) : TutorState :=
  match resp with
  | .success d =>
      let hist := s.messageHistory ++ [⟨message, d.response⟩]
      { s with
          rendered := s.rendered ++ [aiMsg d.response false],
          messageCount := s.messageCount + 2,
          messageHistory := hist,
          savedChatHistory := some hist,
          isTyping := false }
  | .failure _ =>
      { s with
          rendered := s.rendered ++
            [aiMsg "Sorry, I encountered an error. Please try again." true],
          isTyping := false }

/-- One prior exchange returned by the tutor history endpoint. -/
structure Interaction where
  user_message : String
  ai_response : String
deriving DecidableEq

/-- Payload of the tutor history endpoint; the history field may be
absent, and an empty array is truthy. -/
structure HistoryPayload where
  history : Option (List Interaction)
deriving DecidableEq

/-- The two message elements rendered for one restored exchange. -/
def renderHistoryPair (i : Interaction) : List RenderedMessage :=
  [userMsg i.user_message, aiMsg i.ai_response false]

/-- The welcome message preserved by the history reset: the first
rendered element matching the ai-message selector, if any. -/
def welcomeMessageOf (msgs : List RenderedMessage) : List RenderedMessage :=
  match msgs.find? (fun m => decide (m.role = .ai)) with
  | some w => [w]
  | none => []

/-- Embedding of AcadefyTutor.loadChatHistory (lines 625-654): on a
successful fetch whose payload has a history field, the message region
is reset to the preserved welcome message followed by the restored
pairs and the displayed count becomes twice the pair count; the
in-memory messageHistory field is never touched. -/
def loadChatHistory (s : TutorState) (resp : ApiResult HistoryPayload) :
    TutorState :=
  match resp with
  | .success d =>
      match d.history with
      | some history =>
          { s with
              rendered := welcomeMessageOf s.rendered ++
                (history.map renderHistoryPair).flatten,
              messageCount := history.length * 2 }
      | none => s
  | .failure _ => s

/-- Observable outcome of the export action. -/
inductive ExportOutcome where
  | noExport (toastMsg : String)
  | exported (sessionId : String) (messageCount : Nat)
      (messages : List ChatExchange)
deriving DecidableEq

/-- Embedding of AcadefyTutor.exportChat (lines 679-697): an empty
in-memory history shows an informational toast and downloads nothing;
otherwise the file holds the session id, the count and the exchanges. -/
def exportChat (s : TutorState) : ExportOutcome :=
  if s.messageHistory.length = 0 then .noExport "No chat history to export"
  else .exported s.sessionId s.messageCount s.messageHistory

/-! ## Profile controller: learning goals (profile.js, addGoal) -/

/-- Toast severity passed to the shell toast helper. -/
inductive ToastKind where
  | success
  | error
  | info
deriving DecidableEq

/-- Observable outcome of one addGoal invocation: the goals list, the
input box value afterwards, the value written to storage by saveGoals
(none when no write happened), and the toast shown. -/
structure GoalsOutcome where
  goals : List String
  inputAfter : String
  savedGoals : Option (List String)
  toast : ToastKind × String
deriving DecidableEq

/-- Embedding of AcadefyProfile.addGoal (profile.js lines 221-243): the
input is trimmed, an empty result or one longer than 100 characters is
rejected with an error toast before any mutation or persistence, and
an accepted goal is appended, persisted, and clears the input. -/
def addGoal (goals : List String) (input : String) : GoalsOutcome :=
  let goalText := jsTrim input
  if goalText = "" then
    ⟨goals, input, none, (.error, "Please enter a goal")⟩
  else if jsLength goalText > 100 then
    ⟨goals, input, none, (.error, "Goal is too long (max 100 characters)")⟩
  else
    ⟨goals ++ [goalText], "", some (goals ++ [goalText]),
      (.success, "Goal added successfully!")⟩

/-! ## Profile controller: document file validation
(profile.js, validateAndDisplayFiles) -/

/-- The name and byte size of one selected file. -/
structure FileMeta where
  name : String
  size : Nat
deriving DecidableEq

/-- The allowed document extensions (profile.js line 508). -/
def allowedExtensions : List String := [".pdf", ".docx", ".pptx", ".txt"]

/-- The per-file size cap in bytes (profile.js line 507). -/
def maxFileSize : Nat := 10 * 1024 * 1024

/-- The per-batch file-count cap (profile.js line 506). -/
def maxFilesPerBatch : Nat := 5

/-- Embedding of the extension computation at profile.js line 520: a dot
followed by the lower-cased last dot-separated component of the name. -/
def fileExtension (name : String) : String :=
  String.mk ('.' :: ((splitOnDot name.data).getLastD []).map jsCharToLower)

/-- One iteration of the per-file validation loop (profile.js lines
519-535): an unsupported extension is reported first, then an oversized
file, otherwise the file is accepted. -/
def validateFilesStep (acc : List FileMeta × List String) (file : FileMeta) :
    List FileMeta × List String :=
  if !(allowedExtensions.contains (fileExtension file.name)) then
    (acc.1, acc.2 ++ [file.name ++ ": Unsupported file type"])
  else if file.size > maxFileSize then
    (acc.1, acc.2 ++ [file.name ++ ": File too large (max 10MB)"])
  else
    (acc.1 ++ [file], acc.2)

/-- Observable outcome of validateAndDisplayFiles: either the whole
batch is rejected with a toast, or the accepted files and the per-file
error messages are produced. -/
inductive FilesValidation where
  | batchRejected (toastMsg : String)
  | processed (validFiles : List FileMeta) (errors : List String)
deriving DecidableEq

/-- Embedding of AcadefyProfile.validateAndDisplayFiles (profile.js
lines 505-550): more than five files aborts before any per-file check;
otherwise each file is validated in order. -/
def validateAndDisplayFiles (files : List FileMeta) : FilesValidation :=
  if files.length > maxFilesPerBatch then
    .batchRejected ("Maximum " ++ toString maxFilesPerBatch ++ " files allowed")
  else
    let r := files.foldl validateFilesStep ([], [])
    .processed r.1 r.2

/-- A file passes the per-file validation: allowed extension and size
at most the cap. -/
def isValidFile (f : FileMeta) : Bool :=
  allowedExtensions.contains (fileExtension f.name) && decide (f.size ≤ maxFileSize)

/-- The error message reported for an invalid file, matching the branch
order of the validation loop. -/
def fileErrorMsg (f : FileMeta) : String :=
  if !(allowedExtensions.contains (fileExtension f.name)) then
    f.name ++ ": Unsupported file type"
  else
    f.name ++ ": File too large (max 10MB)"

/-! ## Profile controller: statistics view (profile.js, loadStatistics) -/

/-- Aggregate block of the progress payload used by the statistics view. -/
structure OverallStats where
  total_subjects : Nat
  total_interactions : Nat
deriving DecidableEq

/-- Progress payload as read by loadStatistics; the aggregate block may
be absent (optional chaining in the source). -/
structure ProfileProgressPayload where
  overall_stats : Option OverallStats
deriving DecidableEq

/-- Per-subject statistics block of the analytics payload. -/
structure SubjectStat where
  skill_level : ℚ
  completion : ℚ
deriving DecidableEq

/-- The analytics object: the daily-interactions map and the per-subject
statistics map, each possibly absent (or-empty-object guards in the
source).  JavaScript object keys are distinct; the maps are embedded as
association lists. -/
structure ProfileAnalytics where
  daily_interactions : Option (List (String × Nat))
  subject_statistics : Option (List (String × SubjectStat))
deriving DecidableEq

/-- Payload of the analytics endpoint as read by loadStatistics. -/
structure ProfileAnalyticsPayload where
  analytics : ProfileAnalytics
deriving DecidableEq

/-- The four statistics rendered by the profile view. -/
structure ProfileStats where
  daysActive : Nat
  totalMessages : Nat
  subjectsExplored : Nat
  achievements : Nat
deriving DecidableEq

/-- The achievement filter of profile.js lines 304-306: skill level at
least 7 or completion at least 80. -/
def achievementThreshold (stat : SubjectStat) : Bool :=
  decide (stat.skill_level ≥ 7) || decide (stat.completion ≥ 80)

/-- Embedding of AcadefyProfile.loadStatistics (profile.js lines
280-316): the four statistics start at zero; a successful progress
fetch fills the subject and message totals, a successful analytics
fetch fills days-active (key count of the daily-interactions map) and
achievements (count of subjects passing the threshold). -/
def loadStatistics (pr : ApiResult ProfileProgressPayload)
    (an : ApiResult ProfileAnalyticsPayload) : ProfileStats :=
  let base : ProfileStats := ⟨0, 0, 0, 0⟩
  let s1 :=
    match pr with
    | .success d =>
        { base with
            subjectsExplored := (d.overall_stats.map OverallStats.total_subjects).getD 0,
            totalMessages := (d.overall_stats.map OverallStats.total_interactions).getD 0 }
    | .failure _ => base
  match an with
  | .success d =>
      { s1 with
          daysActive := (d.analytics.daily_interactions.getD []).length,
          achievements :=
            ((d.analytics.subject_statistics.getD []).filter
              (fun p => achievementThreshold p.2)).length }
  | .failure _ => s1

/-! ## Helper lemmas -/

theorem lookupStore_setStore_self (st : Store) (k v : String) :
    lookupStore (setStore st k v) k = some v := by
  induction st with
  | nil => simp [setStore, lookupStore]
  | cons p rest ih =>
      obtain ⟨k2, v2⟩ := p
      by_cases hk : k2 = k
      · simp [setStore, hk, lookupStore]
      · simp [setStore, hk, lookupStore, ih]

theorem clearStore_cons (p : String × String) (rest : Store) :
    clearStore (p :: rest) =
      if jsStartsWith p.1 "acadefy_" = true then clearStore rest
      else p :: clearStore rest := by
  cases h1 : jsStartsWith p.1 "acadefy_" <;>
    simp [clearStore, List.filter_cons, h1]

theorem lookupStore_clearStore (st : Store) (k : String) :
    lookupStore (clearStore st) k =
      if jsStartsWith k "acadefy_" = true then none else lookupStore st k := by
  induction st with
  | nil => simp [clearStore, lookupStore]
  | cons p rest ih =>
      obtain ⟨k2, v⟩ := p
      rw [clearStore_cons]
      by_cases hk : k2 = k
      · subst hk
        cases h1 : jsStartsWith k2 "acadefy_"
        · simp [h1, lookupStore]
        · simp [h1, lookupStore, ih]
      · cases h1 : jsStartsWith k2 "acadefy_"
        · simp [h1, lookupStore, hk, ih]
        · simp [h1, lookupStore, hk, ih]

theorem session_id_ne_empty (s : String) : ("session_" ++ s) ≠ "" := by
  intro h
  have h2 : ("session_" ++ s).length = 0 := by rw [h]; rfl
  rw [String.length_append] at h2
  have h3 : "session_".length = 8 := rfl
  omega

/-! ## Claim theorems -/

/-- C1: for every endpoint and options, apiRequest returns a success
result exactly when the single fetch attempt yields a 2xx status with a
JSON-parseable body; a network failure, a non-2xx status, or a parse
failure each yield a failure result carrying the error message, and the
helper is a total function of the one fetch outcome, so nothing is
thrown past its boundary and no retry happens. -/
theorem apiRequest_uniform_result (α : Type) :
    (∀ m : String, apiRequest (α := α) (.netError m) = .failure m) ∧
    (∀ (st : Nat) (d : α), statusOk st = true →
      apiRequest (.response st (.parsed d)) = .success d) ∧
    (∀ (st : Nat) (m : String), statusOk st = true →
      apiRequest (α := α) (.response st (.parseError m)) = .failure m) ∧
    (∀ (st : Nat) (b : ParseOutcome α), statusOk st = false →
      apiRequest (.response st b) =
        .failure ("HTTP error! status: " ++ toString st)) ∧
    (∀ f : FetchOutcome α,
      (∃ d, apiRequest f = .success d) ∨ (∃ m, apiRequest f = .failure m)) := by
  refine ⟨fun m => rfl, fun st d h => ?_, fun st m h => ?_, fun st b h => ?_,
    fun f => ?_⟩
  · simp [apiRequest, h]
  · simp [apiRequest, h]
  · simp [apiRequest, h]
  · match f with
    | .netError m => exact Or.inr ⟨m, rfl⟩
    | .response st b =>
        cases h : statusOk st
        · exact Or.inr ⟨"HTTP error! status: " ++ toString st,
            by simp [apiRequest, h]⟩
        · cases b with
          | parsed d => exact Or.inl ⟨d, by simp [apiRequest, h]⟩
          | parseError m => exact Or.inr ⟨m, by simp [apiRequest, h]⟩

theorem apiRequest_uniform_result_witness :
    apiRequest (α := Nat) (.response 200 (.parsed 7)) = .success 7 ∧
    apiRequest (α := Nat) (.response 200 (.parseError "bad json")) =
      .failure "bad json" ∧
    apiRequest (α := Nat) (.response 500 (.parsed 7)) =
      .failure ("HTTP error! status: " ++ toString 500) :=
  ⟨(apiRequest_uniform_result Nat).2.1 200 7 (by decide),
   (apiRequest_uniform_result Nat).2.2.1 200 "bad json" (by decide),
   (apiRequest_uniform_result Nat).2.2.2.1 500 (.parsed 7) (by decide)⟩

/-- C2: after the dashboard load sequence runs its three fetch attempts
from the freshly constructed state, the content view is shown exactly
when the progress fetch succeeded with a progress list holding at least
one entry, and the empty-state view is shown otherwise — independently
of the recommendations and analytics results, over which the statement
quantifies. -/
theorem dashboard_content_iff_progress_nonempty {ρ τ : Type}
    (pr : ApiResult ProgressPayload) (rec : ApiResult ρ) (an : ApiResult τ) :
    ((loadDashboardData initDashboard pr rec an).2 = DashDisplay.content ↔
      ∃ d, pr = .success d ∧ ∃ l, d.progress = some l ∧ l ≠ []) ∧
    ((loadDashboardData initDashboard pr rec an).2 = DashDisplay.emptyState ↔
      ¬∃ d, pr = .success d ∧ ∃ l, d.progress = some l ∧ l ≠ []) := by
  cases pr with
  | failure e =>
      cases rec <;> cases an <;>
        simp [loadDashboardData, loadProgressData, loadRecommendations,
          loadAnalytics, hasData, initDashboard]
  | success d =>
      cases hp : d.progress with
      | none =>
          cases rec <;> cases an <;>
            simp [loadDashboardData, loadProgressData, loadRecommendations,
              loadAnalytics, hasData, initDashboard, hp]
      | some l =>
          cases l with
          | nil =>
              cases rec <;> cases an <;>
                simp [loadDashboardData, loadProgressData, loadRecommendations,
                  loadAnalytics, hasData, initDashboard, hp]
          | cons x xs =>
              cases rec <;> cases an <;>
                simp [loadDashboardData, loadProgressData, loadRecommendations,
                  loadAnalytics, hasData, initDashboard, hp]

/-- C9: clearing storage removes exactly the entries whose key starts
with the acadefy namespace: looking up any namespaced key afterwards
yields none, and any other key keeps both its presence and its value. -/
theorem storage_clear_only_namespaced (st : Store) (k : String) :
    lookupStore (clearStore st) k =
      if jsStartsWith k "acadefy_" = true then none else lookupStore st k :=
  lookupStore_clearStore st k

/-- C8: when storage holds no session id, generateSessionId creates and
persists one under the namespaced key; every later call — with any
other entropy, and also after a reload that re-reads the persisted
value — returns the same identifier without generating a new one, and
clearing storage removes the entry. -/
theorem sessionId_generated_once (st : Store) (fresh fresh2 : String)
    (h : initSessionId st = none) :
    (generateSessionId fresh (initApp st)).2 = "session_" ++ fresh ∧
    lookupStore (generateSessionId fresh (initApp st)).1.store sessionKey =
      some ("session_" ++ fresh) ∧
    generateSessionId fresh2 (generateSessionId fresh (initApp st)).1 =
      ((generateSessionId fresh (initApp st)).1, "session_" ++ fresh) ∧
    generateSessionId fresh2
        (initApp (generateSessionId fresh (initApp st)).1.store) =
      (initApp (generateSessionId fresh (initApp st)).1.store,
        "session_" ++ fresh) ∧
    initSessionId (clearStore (generateSessionId fresh (initApp st)).1.store) =
      none := by
  have hne : ("session_" ++ fresh) ≠ "" := session_id_ne_empty fresh
  have hgen : generateSessionId fresh (initApp st) =
      (⟨some ("session_" ++ fresh),
        setStore st sessionKey ("session_" ++ fresh)⟩, "session_" ++ fresh) := by
    simp [generateSessionId, initApp, h, sessionIdFalsy]
  have hlook : lookupStore (setStore st sessionKey ("session_" ++ fresh))
      sessionKey = some ("session_" ++ fresh) :=
    lookupStore_setStore_self st sessionKey ("session_" ++ fresh)
  refine ⟨by rw [hgen], by rw [hgen]; exact hlook, ?_, ?_, ?_⟩
  · rw [hgen]
    simp [generateSessionId, sessionIdFalsy, hne]
  · rw [hgen]
    have hinit : initSessionId (setStore st sessionKey ("session_" ++ fresh)) =
        some ("session_" ++ fresh) := by
      simp [initSessionId, hlook, hne]
    simp [initApp, hinit, generateSessionId, sessionIdFalsy, hne]
  · rw [hgen]
    have hclr := lookupStore_clearStore
      (setStore st sessionKey ("session_" ++ fresh)) sessionKey
    have hsw : jsStartsWith sessionKey "acadefy_" = true := by decide
    rw [hsw] at hclr
    simp at hclr
    simp [initSessionId, hclr]

theorem sessionId_generated_once_witness :
    (generateSessionId "w1" (initApp [])).2 = "session_" ++ "w1" ∧
    lookupStore (generateSessionId "w1" (initApp [])).1.store sessionKey =
      some ("session_" ++ "w1") ∧
    generateSessionId "w2" (generateSessionId "w1" (initApp [])).1 =
      ((generateSessionId "w1" (initApp [])).1, "session_" ++ "w1") ∧
    generateSessionId "w2"
        (initApp (generateSessionId "w1" (initApp [])).1.store) =
      (initApp (generateSessionId "w1" (initApp [])).1.store,
        "session_" ++ "w1") ∧
    initSessionId (clearStore (generateSessionId "w1" (initApp [])).1.store) =
      none :=
  sessionId_generated_once [] "w1" "w2" rfl

/-- C3: at most one chat send is in flight: starting a send while the
busy flag is set is a no-op returning the state unchanged and sending
nothing, and resolving a pending send — successfully or not — always
clears the busy flag so sending becomes possible again. -/
theorem sendMessage_single_flight :
    (∀ s : TutorState, s.isTyping = true → sendMessageStart s = (s, none)) ∧
    (∀ (s : TutorState) (m : String) (r : ApiResult TutorReply),
      (sendMessageResolve s m r).isTyping = false) := by
  constructor
  · intro s h
    simp [sendMessageStart, h]
  · intro s m r
    cases r <;> simp [sendMessageResolve]

theorem sendMessage_single_flight_witness :
    sendMessageStart ⟨"sid", true, "hello", 0, [], [], none⟩ =
      (⟨"sid", true, "hello", 0, [], [], none⟩, none) ∧
    (sendMessageResolve ⟨"sid", true, "", 0, [], [], none⟩ "hi"
      (.success ⟨"answer"⟩)).isTyping = false ∧
    (sendMessageResolve ⟨"sid", true, "", 0, [], [], none⟩ "hi"
      (.failure "timeout")).isTyping = false :=
  ⟨sendMessage_single_flight.1 _ rfl,
   sendMessage_single_flight.2 _ "hi" (.success ⟨"answer"⟩),
   sendMessage_single_flight.2 _ "hi" (.failure "timeout")⟩

/-- C10: loading chat history renders the restored pairs after the
preserved welcome message and sets the displayed count to twice the
number of pairs, but never touches the in-memory messageHistory list;
hence on a freshly loaded page (empty in-memory history) exporting
right after any history load reports that there is no chat history and
produces no file. -/
theorem loadChatHistory_export_disconnect (s : TutorState)
    (resp : ApiResult HistoryPayload) :
    (loadChatHistory s resp).messageHistory = s.messageHistory ∧
    (∀ h : List Interaction, resp = .success ⟨some h⟩ →
      (loadChatHistory s resp).messageCount = h.length * 2 ∧
      (loadChatHistory s resp).rendered =
        welcomeMessageOf s.rendered ++ (h.map renderHistoryPair).flatten) ∧
    (s.messageHistory = [] →
      exportChat (loadChatHistory s resp) =
        .noExport "No chat history to export") := by
  have hist_eq : (loadChatHistory s resp).messageHistory = s.messageHistory := by
    cases resp with
    | success d => cases hh : d.history <;> simp [loadChatHistory, hh]
    | failure e => simp [loadChatHistory]
  refine ⟨hist_eq, ?_, ?_⟩
  · rintro h rfl
    simp [loadChatHistory]
  · intro he
    rw [exportChat, hist_eq, he]
    simp

theorem loadChatHistory_export_disconnect_witness :
    (loadChatHistory ⟨"sid", false, "", 0, [], [], none⟩
      (.success ⟨some [⟨"q1", "a1"⟩, ⟨"q2", "a2"⟩]⟩)).messageCount =
        ([⟨"q1", "a1"⟩, ⟨"q2", "a2"⟩] : List Interaction).length * 2 ∧
    exportChat (loadChatHistory ⟨"sid", false, "", 0, [], [], none⟩
      (.success ⟨some [⟨"q1", "a1"⟩, ⟨"q2", "a2"⟩]⟩)) =
        .noExport "No chat history to export" :=
  ⟨((loadChatHistory_export_disconnect ⟨"sid", false, "", 0, [], [], none⟩
      (.success ⟨some [⟨"q1", "a1"⟩, ⟨"q2", "a2"⟩]⟩)).2.1
      [⟨"q1", "a1"⟩, ⟨"q2", "a2"⟩] rfl).1,
   (loadChatHistory_export_disconnect ⟨"sid", false, "", 0, [], [], none⟩
      (.success ⟨some [⟨"q1", "a1"⟩, ⟨"q2", "a2"⟩]⟩)).2.2 rfl⟩

/-- C4: addGoal rejects a trimmed goal longer than 100 characters with a
validation error toast and leaves both the goals list and the persisted
storage untouched; an all-whitespace input is likewise rejected with a
toast and no mutation; and a trimmed goal of exactly 100 characters is
accepted, appended and persisted. -/
theorem addGoal_validation (goals : List String) (input : String) :
    (jsLength (jsTrim input) > 100 →
      addGoal goals input =
        ⟨goals, input, none,
          (.error, "Goal is too long (max 100 characters)")⟩) ∧
    (jsTrim input = "" →
      addGoal goals input =
        ⟨goals, input, none, (.error, "Please enter a goal")⟩) ∧
    (jsLength (jsTrim input) = 100 →
      addGoal goals input =
        ⟨goals ++ [jsTrim input], "", some (goals ++ [jsTrim input]),
          (.success, "Goal added successfully!")⟩) := by
  refine ⟨fun h => ?_, fun h => ?_, fun h => ?_⟩
  · have hne : jsTrim input ≠ "" := by
      intro he
      rw [he] at h
      have h0 : jsLength "" = 0 := rfl
      omega
    simp [addGoal, hne, h]
  · simp [addGoal, h]
  · have hne : jsTrim input ≠ "" := by
      intro he
      rw [he] at h
      have h0 : jsLength "" = 0 := rfl
      omega
    have hle : ¬(jsLength (jsTrim input) > 100) := by omega
    simp [addGoal, hne, hle]

theorem addGoal_validation_witness :
    addGoal [] (String.mk (List.replicate 101 'a')) =
      ⟨[], String.mk (List.replicate 101 'a'), none,
        (.error, "Goal is too long (max 100 characters)")⟩ ∧
    addGoal [] "   " = ⟨[], "   ", none, (.error, "Please enter a goal")⟩ ∧
    addGoal [] (String.mk (List.replicate 100 'a')) =
      ⟨[] ++ [jsTrim (String.mk (List.replicate 100 'a'))], "",
        some ([] ++ [jsTrim (String.mk (List.replicate 100 'a'))]),
        (.success, "Goal added successfully!")⟩ :=
  ⟨(addGoal_validation [] _).1 (by decide),
   (addGoal_validation [] _).2.1 (by decide),
   (addGoal_validation [] _).2.2 (by decide)⟩

theorem charsLeadWith_append (l m : List Char) :
    charsLeadWith (l ++ m) l = true := by
  induction l with
  | nil => simp [charsLeadWith]
  | cons c cs ih => simp [charsLeadWith, ih]

theorem foldl_validateFilesStep (files : List FileMeta) :
    ∀ acc : List FileMeta × List String,
      files.foldl validateFilesStep acc =
        (acc.1 ++ files.filter isValidFile,
         acc.2 ++ (files.filter (fun f => !(isValidFile f))).map fileErrorMsg) := by
  induction files with
  | nil => intro acc; simp
  | cons f rest ih =>
      intro acc
      rw [List.foldl_cons, ih]
      by_cases hmem : fileExtension f.name ∈ allowedExtensions
      · by_cases hs : f.size ≤ maxFileSize
        · have hgt : ¬(maxFileSize < f.size) := not_lt.mpr hs
          simp [validateFilesStep, isValidFile, fileErrorMsg,
            List.filter_cons, hmem, hs, hgt, List.append_assoc]
        · have hgt : maxFileSize < f.size := not_le.mp hs
          simp [validateFilesStep, isValidFile, fileErrorMsg,
            List.filter_cons, hmem, hs, hgt, List.append_assoc]
      · simp [validateFilesStep, isValidFile, fileErrorMsg,
          List.filter_cons, hmem, List.append_assoc]

/-- C5: a batch of more than five files is rejected outright with no
per-file validation; a batch of at most five files accepts exactly the
files with an allowed extension and size at most ten mebibytes, and
reports one error per invalid file whose message starts with that file
name; the sample batch of three valid, one oversized and one
wrong-extension file yields exactly three accepted files and two
errors. -/
theorem validateAndDisplayFiles_spec :
    (∀ files : List FileMeta, files.length > 5 →
      validateAndDisplayFiles files =
        .batchRejected
          ("Maximum " ++ toString maxFilesPerBatch ++ " files allowed")) ∧
    (∀ files : List FileMeta, files.length ≤ 5 →
      validateAndDisplayFiles files =
        .processed (files.filter isValidFile)
          ((files.filter (fun f => !(isValidFile f))).map fileErrorMsg)) ∧
    (∀ f : FileMeta, jsStartsWith (fileErrorMsg f) f.name = true) ∧
    validateAndDisplayFiles
        [⟨"notes.pdf", 1000⟩, ⟨"essay.docx", 2000⟩, ⟨"todo.txt", 3000⟩,
         ⟨"big.pdf", 10 * 1024 * 1024 + 1⟩, ⟨"weird.exe", 1000⟩] =
      .processed
        [⟨"notes.pdf", 1000⟩, ⟨"essay.docx", 2000⟩, ⟨"todo.txt", 3000⟩]
        ["big.pdf: File too large (max 10MB)",
         "weird.exe: Unsupported file type"] := by
  refine ⟨fun files h => ?_, fun files h => ?_, fun f => ?_, by decide⟩
  · have h5 : files.length > maxFilesPerBatch := h
    simp [validateAndDisplayFiles, h5]
  · have h5 : ¬(files.length > maxFilesPerBatch) := not_lt.mpr h
    simp [validateAndDisplayFiles, h5, foldl_validateFilesStep]
  · rw [fileErrorMsg]
    cases hc : allowedExtensions.contains (fileExtension f.name) <;>
      simp [hc, jsStartsWith, String.data_append, charsLeadWith_append]

theorem validateAndDisplayFiles_spec_witness :
    validateAndDisplayFiles (List.replicate 6 ⟨"a.pdf", 1⟩) =
      .batchRejected
        ("Maximum " ++ toString maxFilesPerBatch ++ " files allowed") ∧
    validateAndDisplayFiles [⟨"a.pdf", 1⟩] =
      .processed ([⟨"a.pdf", 1⟩].filter isValidFile)
        (([(⟨"a.pdf", 1⟩ : FileMeta)].filter
          (fun f => !(isValidFile f))).map fileErrorMsg) :=
  ⟨validateAndDisplayFiles_spec.1 _ (by decide),
   validateAndDisplayFiles_spec.2.1 _ (by decide)⟩

/-- C6 counterexample: the claim asserts that for every fetch failure
(progress, analytics, or both) the statistics view renders with
all-zero default values; with a successful progress fetch reporting
five interactions over one subject and a failed analytics fetch, the
rendered view is not all-zero, refuting the claim as stated. -/
theorem loadStatistics_failure_not_all_zero :
    loadStatistics (.success ⟨some ⟨1, 5⟩⟩) (.failure "network error") =
      ⟨0, 5, 1, 0⟩ ∧
    (⟨0, 5, 1, 0⟩ : ProfileStats) ≠ ⟨0, 0, 0, 0⟩ :=
  ⟨rfl, by decide⟩

/-- C6 amended: the statistics view always renders; days-active equals
the entry count of the analytics daily-interactions map (the number of
distinct keys, the map having distinct keys), achievements counts the
subjects whose skill level is at least 7 or whose completion is at
least 80, and each fetch failure zeroes exactly the fields derived from
that fetch — all four fields are zero when both fetches fail. -/
theorem loadStatistics_fields (pr : ApiResult ProfileProgressPayload)
    (an : ApiResult ProfileAnalyticsPayload) :
    (∀ d, an = .success d →
      (loadStatistics pr an).daysActive =
        (d.analytics.daily_interactions.getD []).length ∧
      (loadStatistics pr an).achievements =
        ((d.analytics.subject_statistics.getD []).filter
          (fun p => achievementThreshold p.2)).length) ∧
    (∀ d entries, an = .success d →
      d.analytics.daily_interactions = some entries →
      (entries.map Prod.fst).Nodup →
      (loadStatistics pr an).daysActive = (entries.map Prod.fst).dedup.length) ∧
    (∀ e, an = .failure e →
      (loadStatistics pr an).daysActive = 0 ∧
      (loadStatistics pr an).achievements = 0) ∧
    (∀ e, pr = .failure e →
      (loadStatistics pr an).subjectsExplored = 0 ∧
      (loadStatistics pr an).totalMessages = 0) ∧
    (∀ e1 e2, pr = .failure e1 → an = .failure e2 →
      loadStatistics pr an = ⟨0, 0, 0, 0⟩) := by
  refine ⟨?_, ?_, ?_, ?_, ?_⟩
  · rintro d rfl
    cases pr <;> simp [loadStatistics]
  · rintro d entries rfl hdi hnd
    rw [List.dedup_eq_self.mpr hnd, List.length_map]
    cases pr <;> simp [loadStatistics, hdi]
  · rintro e rfl
    cases pr <;> simp [loadStatistics]
  · rintro e rfl
    cases an <;> simp [loadStatistics]
  · rintro e1 e2 rfl rfl
    rfl

theorem loadStatistics_fields_witness :
    (loadStatistics (.success ⟨some ⟨2, 9⟩⟩)
      (.success ⟨⟨some [("2026-01-01", 3), ("2026-01-02", 1)],
        some [("math", ⟨9, 50⟩), ("science", ⟨2, 10⟩)]⟩⟩)).daysActive = 2 ∧
    (loadStatistics (.success ⟨some ⟨2, 9⟩⟩)
      (.success ⟨⟨some [("2026-01-01", 3), ("2026-01-02", 1)],
        some [("math", ⟨9, 50⟩), ("science", ⟨2, 10⟩)]⟩⟩)).achievements = 1 ∧
    (loadStatistics (.success ⟨some ⟨2, 9⟩⟩)
      (.failure "boom")).daysActive = 0 ∧
    (loadStatistics (.failure "boom")
      (.success ⟨⟨some [("2026-01-01", 3)], none⟩⟩)).totalMessages = 0 ∧
    loadStatistics (.failure "e1")
      (.failure "e2" : ApiResult ProfileAnalyticsPayload) = ⟨0, 0, 0, 0⟩ := by
  refine ⟨?_, ?_, ?_, ?_, ?_⟩
  · rw [((loadStatistics_fields _ _).2.1
      ⟨⟨some [("2026-01-01", 3), ("2026-01-02", 1)],
        some [("math", ⟨9, 50⟩), ("science", ⟨2, 10⟩)]⟩⟩
      [("2026-01-01", 3), ("2026-01-02", 1)] rfl rfl (by decide))]
    decide
  · rw [((loadStatistics_fields _ _).1
      ⟨⟨some [("2026-01-01", 3), ("2026-01-02", 1)],
        some [("math", ⟨9, 50⟩), ("science", ⟨2, 10⟩)]⟩⟩ rfl).2]
    decide
  · exact ((loadStatistics_fields _ _).2.2.1 "boom" rfl).1
  · exact ((loadStatistics_fields _ _).2.2.2.1 "boom" rfl).2
  · exact (loadStatistics_fields _ _).2.2.2.2 "e1" "e2" rfl rfl

/-- C7: the accuracy color band of a progress item is a total three-way
classification of its accuracy rate: at least 80 selects the good
(secondary) color, at least 60 but below 80 the warn (accent) color,
and below 60 the danger color; no other color is ever produced. -/
theorem accuracyColor_bands (p : ProgressItem) :
    (80 ≤ p.accuracy_rate → accuracyColor p = "var(--secondary-color)") ∧
    (60 ≤ p.accuracy_rate ∧ p.accuracy_rate < 80 →
      accuracyColor p = "var(--accent-color)") ∧
    (p.accuracy_rate < 60 → accuracyColor p = "var(--danger-color)") ∧
    (accuracyColor p = "var(--secondary-color)" ∨
     accuracyColor p = "var(--accent-color)" ∨
     accuracyColor p = "var(--danger-color)") := by
  refine ⟨fun h => ?_, fun h => ?_, fun h => ?_, ?_⟩
  · simp [accuracyColor, h, ge_iff_le]
  · have h1 : ¬(80 ≤ p.accuracy_rate) := not_le.mpr h.2
    simp [accuracyColor, h1, h.1, ge_iff_le]
  · have h1 : ¬(80 ≤ p.accuracy_rate) :=
      not_le.mpr (h.trans (by norm_num))
    have h2 : ¬(60 ≤ p.accuracy_rate) := not_le.mpr h
    simp [accuracyColor, h1, h2, ge_iff_le]
  · rw [accuracyColor]
    split
    · exact Or.inl rfl
    · split
      · exact Or.inr (Or.inl rfl)
      · exact Or.inr (Or.inr rfl)

theorem accuracyColor_bands_witness :
    accuracyColor ⟨"mathematics", 3, 50, 10, 85⟩ = "var(--secondary-color)" ∧
    accuracyColor ⟨"mathematics", 3, 50, 10, 65⟩ = "var(--accent-color)" ∧
    accuracyColor ⟨"mathematics", 3, 50, 10, 40⟩ = "var(--danger-color)" :=
  ⟨(accuracyColor_bands ⟨"mathematics", 3, 50, 10, 85⟩).1 (by norm_num),
   (accuracyColor_bands ⟨"mathematics", 3, 50, 10, 65⟩).2.1 (by norm_num),
   (accuracyColor_bands ⟨"mathematics", 3, 50, 10, 40⟩).2.2.1 (by norm_num)⟩

end Acadefy
